import Mathlib

/-!
Verification development for the logging subsystem of the aws-cdi-sdk
repository (header `include/cdi_logger_api.h`) and for the two AWS client
translation units (`CDIMonitoringErrors.cpp`, `PutMetricGroupsResult.cpp`).

Pure shallow embedding: machine integers are modelled as `Nat` with explicit
reduction modulo `2 ^ w` where overflow matters, C strings as `String` or
`List Char`, and the observable effect of an emission (a write to a sink) as
an element of an output list.
-/

/-- Output events produced by one expansion of the rate-limiting log macros
`CDI_LOG_WHEN` / `CDI_LOG_THREAD_WHEN` (include/cdi_logger_api.h lines
132-167).  `countAnnouncement n` models the extra informational line
"The following message has occurred [n] times." and `message` models the
caller's own formatted log line. -/
inductive LogOutput where
  | countAnnouncement : Nat → LogOutput
  | message : LogOutput
deriving DecidableEq, Repr

/-- One invocation of the `CDI_LOG_WHEN` / `CDI_LOG_THREAD_WHEN` macro body
(include/cdi_logger_api.h lines 132-167; the two macros differ only in which
log handle they write to, which does not affect the gating logic modelled
here).  `count` is the value of the per-call-site `static uint64_t
log_event_count` before the call; the result is the counter after the call
paired with the list of lines emitted by this call, in order.  The C code is:
`if (condition) { atomic increment; if ((number) > 0 && (1 == count % (number)
|| 1 == (number))) { if (1 < (number)) emit count announcement; emit message } }`.
The counter is a `uint64_t`, hence the reduction modulo `2 ^ 64`; `number` is
a C `int` expression, modelled as `Int`, and when `0 < number` the C
`uint64 % number` equals `count % number.toNat`. -/
def cdiLogWhen (condition : Bool) (number : Int) (count : Nat) :
    Nat × List LogOutput :=
  match condition with
  | false => (count, [])
  | true =>
    let count' := (count + 1) % 2 ^ 64
    if 0 < number ∧ (count' % number.toNat = 1 ∨ number = 1) then
      if 1 < number then
        (count', [LogOutput.countAnnouncement count', LogOutput.message])
      else
        (count', [LogOutput.message])
    else
      (count', [])

/-- Sequence of invocations of the same `CDI_LOG_WHEN` call site: the
per-site static counter threads through the calls.  Returns the final counter
and, for each call, the list of lines that call emitted. -/
def cdiLogWhenRun (number : Int) (conds : List Bool) (count : Nat) :
    Nat × List (List LogOutput) :=
  match conds with
  | [] => (count, [])
  | c :: rest =>
    let step := cdiLogWhen c number count
    let tail := cdiLogWhenRun number rest step.1
    (tail.1, step.2 :: tail.2)




/-- Modelled from the spec: the filter state of one `CdiLogState` (`struct
CdiLogState` in logger.c, which is not under src/; only the opaque handle
`CdiLogHandle` and the declarations of `CdiLoggerIsEnabled`,
`CdiLoggerComponentEnable` and `CdiLoggerLevelSet` appear in
include/cdi_logger_api.h).  Per the spec a Log "holds an array/map of
\x7bcomponent -> enabled:boolean, level:enum\x7d"; components and levels are open
enumerations supplied by the surrounding system, modelled here as `Nat`. -/
structure CdiLogState where
  componentEnabled : Nat → Bool
  levelThreshold : Nat → Nat

/-- Modelled from the spec: `CdiLoggerIsEnabled` (declared at
include/cdi_logger_api.h line 317, defined in the absent logger.c): "true iff
component is enabled AND level meets or exceeds the configured threshold for
that component on that Log" (levels numerically ascending). -/
def CdiLoggerIsEnabled (log : CdiLogState) (component log_level : Nat) : Bool :=
  log.componentEnabled component && decide (log.levelThreshold component ≤ log_level)

/-- Modelled from the spec: `CdiLoggerComponentEnable` (declared at
include/cdi_logger_api.h line 322, defined in the absent logger.c): mutates
the per-component enabled flag of one Log. -/
def CdiLoggerComponentEnable (log : CdiLogState) (component : Nat) (enable : Bool) :
    CdiLogState :=
  { log with componentEnabled := fun c => if c = component then enable else log.componentEnabled c }

/-- Modelled from the spec: `CdiLoggerLevelSet` (declared at
include/cdi_logger_api.h line 337, defined in the absent logger.c): mutates
the per-component level threshold of one Log. -/
def CdiLoggerLevelSet (log : CdiLogState) (component : Nat) (level : Nat) :
    CdiLogState :=
  { log with levelThreshold := fun c => if c = component then level else log.levelThreshold c }

/-- Multiline log message state, from `CdiLogMultilineState`
(include/cdi_logger_api.h lines 52-66).  The C struct's
`CdiMultilineLogBufferState* buffer_state_ptr` (growable text buffer, defined
in the absent logger.c) is modelled as the list of accumulated lines, and
`log_handle` is not needed because the embedding passes log state explicitly.
Fields keep the C names: `logging_enabled` ("When true, logging is enabled"),
`function_name_str` / `line_number` (call-site metadata), `line_count`
("Number of log lines in the log message buffer"), `buffer_used` ("Buffer was
used, so don't generate output when ending using CdiLoggerMultilineEnd()"). -/
structure CdiLogMultilineState where
  logging_enabled : Bool
  component : Nat
  log_level : Nat
  function_name_str : String
  line_number : Nat
  line_count : Nat
  buffer : List String
  buffer_used : Bool
deriving DecidableEq, Repr

/-- Modelled from the spec: `CdiLoggerMultilineBegin` (declared at
include/cdi_logger_api.h lines 271-273, defined in the absent logger.c):
"allocates/clears a growable buffer; records whether the target Log is
currently enabled for (component, level) (decided once, at Begin)". -/
def CdiLoggerMultilineBegin (log : CdiLogState) (component log_level : Nat)
    (function_name_str : String) (line_number : Nat) : CdiLogMultilineState :=
  { logging_enabled := CdiLoggerIsEnabled log component log_level
    component := component
    log_level := log_level
    function_name_str := function_name_str
    line_number := line_number
    line_count := 0
    buffer := []
    buffer_used := false }

/-- Modelled from the spec: `CdiLoggerMultiline` (declared at
include/cdi_logger_api.h line 283, defined in the absent logger.c): "appends
a formatted line plus a line separator to the buffer; no-op if the state was
determined disabled at Begin". -/
def CdiLoggerMultiline (st : CdiLogMultilineState) (line : String) :
    CdiLogMultilineState :=
  if st.logging_enabled then
    { st with buffer := st.buffer ++ [line], line_count := st.line_count + 1 }
  else
    st

/-- Modelled from the spec: `CdiLoggerMultilineGetBuffer` (declared at
include/cdi_logger_api.h line 293, defined in the absent logger.c): "Return
pointer to multiline log buffer.  Marks the buffer as used, so
CdiLoggerMultilineEnd() won't generate any output. ... Pointer to log buffer
or NULL when logger is disabled."  The returned pointer is modelled as
`Option`, paired with the updated state. -/
def CdiLoggerMultilineGetBuffer (st : CdiLogMultilineState) :
    Option (List String) × CdiLogMultilineState :=
  ((if st.logging_enabled then some st.buffer else none),
   { st with buffer_used := true })

/-- Modelled from the spec: `CdiLoggerMultilineEnd` (declared at
include/cdi_logger_api.h line 301, defined in the absent logger.c): "if not
already marked consumed and the state was enabled, emits the full accumulated
buffer as one atomic write; releases the buffer".  The result is the list of
sink writes performed by the call, each write being the list of lines it
contains. -/
def CdiLoggerMultilineEnd (st : CdiLogMultilineState) : List (List String) :=
  if st.logging_enabled && !st.buffer_used then [st.buffer] else []

/-- Append each line of `lines`, in order, with `CdiLoggerMultiline`. -/
def multilineAppendAll (st : CdiLogMultilineState) (lines : List String) :
    CdiLogMultilineState :=
  lines.foldl CdiLoggerMultiline st

/-- Full multiline assembly scenario: `Begin` against filter state `log0`,
then the filter state is changed to `log1` (mid-assembly configuration
change, which none of the remaining calls consult, since enablement was
captured at Begin), then all of `lines` are appended and `End` is called.
Result: the list of sink writes performed. -/
def multilineScenario (log0 : CdiLogState) (_log1 : CdiLogState)
    (component log_level : Nat) (lines : List String) : List (List String) :=
  let st := CdiLoggerMultilineBegin log0 component log_level "fn" 0
  CdiLoggerMultilineEnd (multilineAppendAll st lines)

/-- Maximum length of a log message string, from `CDI_MAX_LOG_STRING_LENGTH`
(include/cdi_logger_api.h line 27). -/
def CDI_MAX_LOG_STRING_LENGTH : Nat := 1024

/-- Modelled from the spec: the bounded formatting step of emission in the
absent logger.c ("message is hard-capped at a fixed maximum length (1024
characters in the reference system); overflow is silently truncated, never a
fault"; a 2000-character format "yields exactly 1024 (or cap-1 plus
terminator) characters written").  The formatted message is a `List Char`;
a result that would not fit in the `CDI_MAX_LOG_STRING_LENGTH` buffer is cut
to cap-1 characters, leaving room for the C string terminator. -/
def formatBounded (msg : List Char) : List Char :=
  if msg.length < CDI_MAX_LOG_STRING_LENGTH then msg
  else msg.take (CDI_MAX_LOG_STRING_LENGTH - 1)

/-- Modelled from the spec: the process-wide lifecycle state maintained by the
absent logger.c ("process-wide integer reference count; incremented on
initialize, decremented on shutdown; resources are released only when it
reaches zero or a forced shutdown is requested").  `resourcesAllocated`
abstracts all global logger resources being alive. -/
structure CdiLoggerGlobalState where
  refCount : Nat
  resourcesAllocated : Bool
deriving DecidableEq, Repr

/-- Modelled from the spec: `CdiLoggerInitialize` (declared at
include/cdi_logger_api.h line 176, defined in the absent logger.c):
idempotent-safe global setup that increments the lifecycle reference count
(the name is shortened here for lexical reasons). -/
def CdiLoggerInit (s : CdiLoggerGlobalState) : CdiLoggerGlobalState :=
  { refCount := s.refCount + 1, resourcesAllocated := true }

/-- Modelled from the spec: `CdiLoggerShutdown` (declared at
include/cdi_logger_api.h line 370, defined in the absent logger.c): "An
internal reference counter is maintained. When it reaches zero or the
provided force parameter is true, the resources are freed." -/
def CdiLoggerShutdown (s : CdiLoggerGlobalState) (force : Bool) :
    CdiLoggerGlobalState :=
  if s.refCount - 1 = 0 ∨ force = true then
    { refCount := 0, resourcesAllocated := false }
  else
    { s with refCount := s.refCount - 1 }

/-- Concrete filter state with every component enabled at threshold 0. -/
def allOnLog : CdiLogState := ⟨fun _ => true, fun _ => 0⟩

/-- Concrete filter state with every component disabled. -/
def allOffLog : CdiLogState := ⟨fun _ => false, fun _ => 0⟩

/-- Hash function used by the error mapper,
`Aws::Utils::HashingUtils::HashString` from the aws-sdk-cpp core dependency
(an external collaborator of this repository; its well-known implementation
is `unsigned hash = 0; while (char c = *s++) hash = c + 31 * hash; return
hash;`).  Accumulation in a C `unsigned` is modelled by reduction modulo
`2 ^ 32`; the ASCII characters of the error names are nonnegative as C
`char`, so `Char.toNat` agrees with the C character value, and two C `int`
results compare equal iff these `Nat` values do. -/
def hashString (s : String) : Nat :=
  s.data.foldl (fun h c => (c.toNat + 31 * h) % 2 ^ 32) 0

/-- Error codes of the CDI monitoring client, from `enum CDIMonitoringErrors`
referenced by src/aws-cpp-sdk-cdi/source/CDIMonitoringErrors.cpp. -/
inductive CDIMonitoringErrors where
  | FORBIDDEN
  | TOO_MANY_REQUESTS
  | BAD_REQUEST
  | INTERNAL_SERVER_ERROR
deriving DecidableEq, Repr

/-- Core error code space, from `Aws::Client::CoreErrors`: the
`static_cast<CoreErrors>(CDIMonitoringErrors::...)` in
CDIMonitoringErrors.cpp injects the service enum into the core error space,
modelled by the `cdiError` constructor; `UNKNOWN` is `CoreErrors::UNKNOWN`. -/
inductive CoreErrors where
  | UNKNOWN
  | cdiError : CDIMonitoringErrors → CoreErrors
deriving DecidableEq, Repr

/-- Result of the error mapper, from `Aws::Client::AWSError<CoreErrors>`: the
constructor `AWSError<CoreErrors>(code, retryable)` records the error code
and the retryable flag. -/
structure AWSError where
  errorType : CoreErrors
  isRetryable : Bool
deriving DecidableEq, Repr

/-- `FORBIDDEN_HASH` from CDIMonitoringErrors.cpp line 31. -/
def FORBIDDEN_HASH : Nat := hashString "ForbiddenException"

/-- `TOO_MANY_REQUESTS_HASH` from CDIMonitoringErrors.cpp line 32. -/
def TOO_MANY_REQUESTS_HASH : Nat := hashString "TooManyRequestsException"

/-- `BAD_REQUEST_HASH` from CDIMonitoringErrors.cpp line 33. -/
def BAD_REQUEST_HASH : Nat := hashString "BadRequestException"

/-- `INTERNAL_SERVER_ERROR_HASH` from CDIMonitoringErrors.cpp line 34. -/
def INTERNAL_SERVER_ERROR_HASH : Nat := hashString "InternalServerErrorException"

/-- `CDIMonitoringErrorMapper::GetErrorForName` from
src/aws-cpp-sdk-cdi/source/CDIMonitoringErrors.cpp lines 37-58: hashes the
name and compares against the four precomputed name hashes in order,
returning the matching error (never retryable) or `CoreErrors::UNKNOWN`
(also not retryable). -/
def GetErrorForName (errorName : String) : AWSError :=
  if hashString errorName = FORBIDDEN_HASH then
    ⟨CoreErrors.cdiError CDIMonitoringErrors.FORBIDDEN, false⟩
  else if hashString errorName = TOO_MANY_REQUESTS_HASH then
    ⟨CoreErrors.cdiError CDIMonitoringErrors.TOO_MANY_REQUESTS, false⟩
  else if hashString errorName = BAD_REQUEST_HASH then
    ⟨CoreErrors.cdiError CDIMonitoringErrors.BAD_REQUEST, false⟩
  else if hashString errorName = INTERNAL_SERVER_ERROR_HASH then
    ⟨CoreErrors.cdiError CDIMonitoringErrors.INTERNAL_SERVER_ERROR, false⟩
  else
    ⟨CoreErrors.UNKNOWN, false⟩

/-- JSON payload of an `AmazonWebServiceResult<JsonValue>`, modelled as an
association list from key to string value (the only JSON operations
PutMetricGroupsResult.cpp performs are `ValueExists` and `GetString` on top
level keys). -/
def JsonPayload : Type := List (String × String)

/-- `Aws::Utils::Json::JsonView::ValueExists` restricted to the use in
PutMetricGroupsResult.cpp: whether the top-level key is present. -/
def valueExists (payload : JsonPayload) (key : String) : Bool :=
  (List.lookup key payload).isSome

/-- `Aws::Utils::Json::JsonView::GetString` restricted to the use in
PutMetricGroupsResult.cpp: the string value at the top-level key (only ever
called after `ValueExists`, so the default is immaterial). -/
def getString (payload : JsonPayload) (key : String) : String :=
  (List.lookup key payload).getD ""

/-- `Aws::CDIMonitoring::Model::PutMetricGroupsResult`.  Its class definition
is in the model header, which is not under src/; the .cpp shows the
`m_endpoint : Aws::String` member, and any further members the header may
declare are abstracted as `otherMembers` of an arbitrary type so that the
frame property (operator= touches nothing but `m_endpoint`) is expressible. -/
structure PutMetricGroupsResult (α : Type) where
  m_endpoint : String
  otherMembers : α
deriving DecidableEq, Repr

/-- Default constructor `PutMetricGroupsResult::PutMetricGroupsResult()`
(PutMetricGroupsResult.cpp lines 29-31): members are default-constructed, so
`m_endpoint` is the empty `Aws::String`. -/
def putMetricGroupsResultDefault (other : α) : PutMetricGroupsResult α :=
  ⟨"", other⟩

/-- `PutMetricGroupsResult::operator=(const AmazonWebServiceResult<JsonValue>&)`
from src/aws-cpp-sdk-cdi/source/model/PutMetricGroupsResult.cpp lines 38-50:
if the payload has a top-level "endpoint" key, `m_endpoint` is set to its
string value; otherwise nothing is assigned; `*this` is returned, which in
this functional embedding is the resulting record. -/
def putMetricGroupsResultAssign (r : PutMetricGroupsResult α)
    (payload : JsonPayload) : PutMetricGroupsResult α :=
  if valueExists payload "endpoint" then
    { r with m_endpoint := getString payload "endpoint" }
  else
    r




/-- C1: rate-limited emission (`CDI_LOG_WHEN` / `CDI_LOG_THREAD_WHEN`): when
the caller-supplied condition is false the call is a complete no-op (counter
unchanged, nothing emitted); when it is true the counter is incremented and
the caller's message is emitted iff `everyN > 0` and (`everyN == 1` or
`counter mod everyN == 1`).  Concretely: with `everyN = 3` and the condition
true on 7 consecutive calls, emission occurs exactly on occurrences 1, 4, 7;
with `everyN = 1` on every call; with `everyN = 0` never. -/
theorem C1_rate_limited_gate :
    (∀ (number : Int) (count : Nat), cdiLogWhen false number count = (count, [])) ∧
    (∀ (number : Int) (count : Nat),
      (cdiLogWhen true number count).1 = (count + 1) % 2 ^ 64 ∧
      (LogOutput.message ∈ (cdiLogWhen true number count).2 ↔
        0 < number ∧ (number = 1 ∨ ((count + 1) % 2 ^ 64) % number.toNat = 1))) ∧
    (cdiLogWhenRun 3 (List.replicate 7 true) 0).2 =
      [[LogOutput.countAnnouncement 1, LogOutput.message], [], [],
       [LogOutput.countAnnouncement 4, LogOutput.message], [], [],
       [LogOutput.countAnnouncement 7, LogOutput.message]] ∧
    (cdiLogWhenRun 1 (List.replicate 7 true) 0).2 =
      List.replicate 7 [LogOutput.message] ∧
    (cdiLogWhenRun 0 (List.replicate 7 true) 0).2 = List.replicate 7 [] := by
  refine ⟨fun number count => rfl, fun number count => ?_, by decide, by decide,
    by decide⟩
  by_cases hp : 0 < number ∧ ((count + 1) % 2 ^ 64 % number.toNat = 1 ∨ number = 1)
  · by_cases hq : 1 < number
    · have h : cdiLogWhen true number count =
          ((count + 1) % 2 ^ 64,
           [LogOutput.countAnnouncement ((count + 1) % 2 ^ 64), LogOutput.message]) := by
        show (if 0 < number ∧ _ then _ else _) = _
        rw [if_pos hp, if_pos hq]
      rw [h]
      refine ⟨rfl, fun _ => ⟨hp.1, hp.2.symm⟩, fun _ => by simp⟩
    · have h : cdiLogWhen true number count =
          ((count + 1) % 2 ^ 64, [LogOutput.message]) := by
        show (if 0 < number ∧ _ then _ else _) = _
        rw [if_pos hp, if_neg hq]
      rw [h]
      refine ⟨rfl, ?_⟩
      simp only [List.mem_singleton, true_iff]
      exact ⟨hp.1, hp.2.symm⟩
  · have h : cdiLogWhen true number count = ((count + 1) % 2 ^ 64, []) := by
      show (if 0 < number ∧ _ then _ else _) = _
      rw [if_neg hp]
    rw [h]
    refine ⟨rfl, ?_⟩
    simp only [List.not_mem_nil, false_iff]
    intro h2
    exact hp ⟨h2.1, h2.2.symm⟩

/-- Helper: reduced form of one conditionally-true invocation of the
`CDI_LOG_WHEN` gate. -/
theorem cdiLogWhen_true_eq (number : Int) (count : Nat) :
    cdiLogWhen true number count =
      (if 0 < number ∧ ((count + 1) % 2 ^ 64 % number.toNat = 1 ∨ number = 1) then
        if 1 < number then
          ((count + 1) % 2 ^ 64,
           [LogOutput.countAnnouncement ((count + 1) % 2 ^ 64), LogOutput.message])
        else
          ((count + 1) % 2 ^ 64, [LogOutput.message])
      else
        ((count + 1) % 2 ^ 64, [])) := rfl

/-- C2: with `everyN > 1`, every emission of the caller's message is
immediately preceded by exactly one informational line announcing how often
the event has occurred (the post-increment counter value); with `everyN = 1`
the message is emitted alone, with no announcement line.  Concretely, in the
`everyN = 3` run the 4th and 7th occurrences emit the announcement directly
before the message. -/
theorem C2_count_announcement :
    (∀ (number : Int) (count : Nat), 1 < number →
      (cdiLogWhen true number count).2 = [] ∨
      (cdiLogWhen true number count).2 =
        [LogOutput.countAnnouncement ((count + 1) % 2 ^ 64), LogOutput.message]) ∧
    (∀ count : Nat, (cdiLogWhen true 1 count).2 = [LogOutput.message]) ∧
    (cdiLogWhenRun 3 (List.replicate 7 true) 0).2[3]? =
      some [LogOutput.countAnnouncement 4, LogOutput.message] ∧
    (cdiLogWhenRun 3 (List.replicate 7 true) 0).2[6]? =
      some [LogOutput.countAnnouncement 7, LogOutput.message] := by
  refine ⟨?_, ?_, by decide, by decide⟩
  · intro number count hq
    rw [cdiLogWhen_true_eq]
    by_cases hp : 0 < number ∧ ((count + 1) % 2 ^ 64 % number.toNat = 1 ∨ number = 1)
    · rw [if_pos hp, if_pos hq]
      exact Or.inr rfl
    · rw [if_neg hp]
      exact Or.inl rfl
  · intro count
    rw [cdiLogWhen_true_eq]
    rw [if_pos ⟨one_pos, Or.inr rfl⟩, if_neg (lt_irrefl (1 : Int))]

/-- Witness for C2: at `everyN = 3` with counter 0, the single invocation is
covered by the general announcement alternative. -/
theorem C2_count_announcement_witness :
    (cdiLogWhen true 3 0).2 = [] ∨
    (cdiLogWhen true 3 0).2 =
      [LogOutput.countAnnouncement ((0 + 1) % 2 ^ 64), LogOutput.message] :=
  C2_count_announcement.1 3 0 (by decide)

/-- C3: `CdiLoggerIsEnabled(log, c, l)` is true iff component `c` is enabled
on `log` and `l` meets or exceeds the configured threshold for `c`;
consequently, after disabling a component, every level of that component
reports disabled. -/
theorem C3_is_enabled_iff :
    ∀ (log : CdiLogState) (component log_level : Nat),
      (CdiLoggerIsEnabled log component log_level = true ↔
        log.componentEnabled component = true ∧
        log.levelThreshold component ≤ log_level) ∧
      CdiLoggerIsEnabled (CdiLoggerComponentEnable log component false)
        component log_level = false := by
  intro log c l
  constructor
  · simp [CdiLoggerIsEnabled]
  · simp [CdiLoggerIsEnabled, CdiLoggerComponentEnable]

/-- Helper: appending lines to an enabled multiline state concatenates them
onto the buffer, bumps `line_count`, and touches nothing else. -/
theorem multilineAppendAll_enabled (lines : List String) :
    ∀ st : CdiLogMultilineState, st.logging_enabled = true →
      multilineAppendAll st lines =
        { st with buffer := st.buffer ++ lines,
                  line_count := st.line_count + lines.length } := by
  induction lines with
  | nil =>
    intro st h
    simp [multilineAppendAll]
  | cons a rest ih =>
    intro st h
    have hstep : CdiLoggerMultiline st a =
        { st with buffer := st.buffer ++ [a], line_count := st.line_count + 1 } := by
      simp [CdiLoggerMultiline, h]
    have : multilineAppendAll st (a :: rest) =
        multilineAppendAll (CdiLoggerMultiline st a) rest := rfl
    rw [this, hstep, ih _ (by simp [h])]
    simp [Nat.add_assoc, Nat.add_comm 1 rest.length]

/-- Helper: appending lines to a disabled multiline state is a no-op. -/
theorem multilineAppendAll_disabled (lines : List String) :
    ∀ st : CdiLogMultilineState, st.logging_enabled = false →
      multilineAppendAll st lines = st := by
  induction lines with
  | nil =>
    intro st h
    rfl
  | cons a rest ih =>
    intro st h
    have hstep : CdiLoggerMultiline st a = st := by
      simp [CdiLoggerMultiline, h]
    have : multilineAppendAll st (a :: rest) =
        multilineAppendAll (CdiLoggerMultiline st a) rest := rfl
    rw [this, hstep, ih _ h]

/-- C4: on an enabled, unconsumed state, `Begin` followed by the appends of
`lines` followed by `End` performs exactly one sink write, and that single
write contains all appended lines in order — never one write per line. -/
theorem C4_multiline_single_write :
    ∀ (log : CdiLogState) (component log_level : Nat) (fn : String) (ln : Nat)
      (lines : List String),
      CdiLoggerIsEnabled log component log_level = true →
      CdiLoggerMultilineEnd
        (multilineAppendAll (CdiLoggerMultilineBegin log component log_level fn ln)
          lines) = [lines] := by
  intro log c l fn ln lines h
  rw [multilineAppendAll_enabled lines _ (by simp [CdiLoggerMultilineBegin, h])]
  simp [CdiLoggerMultilineEnd, CdiLoggerMultilineBegin, h]

/-- Witness for C4: three lines on a fully enabled log yield the one
three-line write. -/
theorem C4_multiline_single_write_witness :
    CdiLoggerMultilineEnd
      (multilineAppendAll (CdiLoggerMultilineBegin allOnLog 0 3 "fn" 10)
        ["line1", "line2", "line3"]) = [["line1", "line2", "line3"]] :=
  C4_multiline_single_write allOnLog 0 3 "fn" 10 ["line1", "line2", "line3"]
    (by decide)

/-- C5: multiline enablement is decided once at `Begin`: if the target log is
disabled for `(component, log_level)` at `Begin` time, no sink write occurs
for that multiline message, whatever filter state (`log1`, e.g. the
re-enabled one) is in force between `Begin` and `End`. -/
theorem C5_begin_decides_enablement :
    ∀ (log0 : CdiLogState) (component log_level : Nat),
      CdiLoggerIsEnabled log0 component log_level = false →
      (CdiLoggerMultilineBegin log0 component log_level "fn" 0).logging_enabled
        = false ∧
      ∀ (log1 : CdiLogState) (lines : List String),
        multilineScenario log0 log1 component log_level lines = [] := by
  intro log0 c l h
  refine ⟨by simp [CdiLoggerMultilineBegin, h], ?_⟩
  intro log1 lines
  show CdiLoggerMultilineEnd
    (multilineAppendAll (CdiLoggerMultilineBegin log0 c l "fn" 0) lines) = []
  rw [multilineAppendAll_disabled lines _ (by simp [CdiLoggerMultilineBegin, h])]
  simp [CdiLoggerMultilineEnd, CdiLoggerMultilineBegin, h]

/-- Witness for C5: a log with every component disabled at `Begin`, re-enabled
(fully enabled state) mid-assembly, still produces no write. -/
theorem C5_begin_decides_enablement_witness :
    (CdiLoggerMultilineBegin allOffLog 0 0 "fn" 0).logging_enabled = false ∧
    multilineScenario allOffLog allOnLog 0 0 ["a", "b"] = [] :=
  ⟨(C5_begin_decides_enablement allOffLog 0 0 (by decide)).1,
   (C5_begin_decides_enablement allOffLog 0 0 (by decide)).2 allOnLog ["a", "b"]⟩

/-- C6: `CdiLoggerMultilineGetBuffer` returns the accumulated buffer when the
state is enabled and `none` (NULL) when it is disabled; in both cases it
marks the state consumed (`buffer_used`), so a subsequent `End` on the
returned state emits nothing. -/
theorem C6_get_buffer :
    ∀ st : CdiLogMultilineState,
      (st.logging_enabled = true →
        (CdiLoggerMultilineGetBuffer st).1 = some st.buffer) ∧
      (st.logging_enabled = false → (CdiLoggerMultilineGetBuffer st).1 = none) ∧
      ((CdiLoggerMultilineGetBuffer st).2).buffer_used = true ∧
      CdiLoggerMultilineEnd (CdiLoggerMultilineGetBuffer st).2 = [] := by
  intro st
  refine ⟨fun h => by simp [CdiLoggerMultilineGetBuffer, h],
          fun h => by simp [CdiLoggerMultilineGetBuffer, h], rfl, ?_⟩
  simp [CdiLoggerMultilineEnd, CdiLoggerMultilineGetBuffer]

/-- Witness for C6: after `GetBuffer` on an enabled one-line state, the buffer
is returned and the subsequent `End` emits nothing. -/
theorem C6_get_buffer_witness :
    (CdiLoggerMultilineGetBuffer ⟨true, 0, 0, "f", 1, 1, ["x"], false⟩).1 =
      some (CdiLogMultilineState.mk true 0 0 "f" 1 1 ["x"] false).buffer ∧
    CdiLoggerMultilineEnd
      (CdiLoggerMultilineGetBuffer ⟨true, 0, 0, "f", 1, 1, ["x"], false⟩).2 = [] :=
  ⟨(C6_get_buffer ⟨true, 0, 0, "f", 1, 1, ["x"], false⟩).1 rfl,
   (C6_get_buffer ⟨true, 0, 0, "f", 1, 1, ["x"], false⟩).2.2.2⟩

/-- C7: every emitted message is hard-capped by `CDI_MAX_LOG_STRING_LENGTH`
(1024): the formatted output never exceeds cap-1 characters (plus the C
string terminator); a longer format result is silently truncated to exactly
cap-1 characters, and a fitting one passes through unchanged — the message is
never dropped and the buffer never overflowed. -/
theorem C7_truncation_cap :
    ∀ msg : List Char,
      (formatBounded msg).length ≤ CDI_MAX_LOG_STRING_LENGTH - 1 ∧
      (CDI_MAX_LOG_STRING_LENGTH ≤ msg.length →
        (formatBounded msg).length = CDI_MAX_LOG_STRING_LENGTH - 1 ∧
        formatBounded msg = msg.take (CDI_MAX_LOG_STRING_LENGTH - 1)) ∧
      (msg.length < CDI_MAX_LOG_STRING_LENGTH → formatBounded msg = msg) := by
  intro msg
  by_cases h : msg.length < CDI_MAX_LOG_STRING_LENGTH
  · have hform : formatBounded msg = msg := by simp [formatBounded, h]
    refine ⟨?_, fun hc => absurd h (by omega), fun _ => hform⟩
    rw [hform]
    omega
  · have hform : formatBounded msg = msg.take (CDI_MAX_LOG_STRING_LENGTH - 1) := by
      simp [formatBounded, h]
    have hlen : (formatBounded msg).length = CDI_MAX_LOG_STRING_LENGTH - 1 := by
      rw [hform, List.length_take]
      omega
    exact ⟨le_of_eq hlen, fun _ => ⟨hlen, hform⟩, fun hlt => absurd hlt h⟩

/-- Witness for C7: a 2000-character message is written as exactly 1023
characters (cap minus the terminator). -/
theorem C7_truncation_cap_witness :
    (formatBounded (List.replicate 2000 'a')).length =
      CDI_MAX_LOG_STRING_LENGTH - 1 :=
  ((C7_truncation_cap (List.replicate 2000 'a')).2.1
    (by rw [List.length_replicate]; norm_num [CDI_MAX_LOG_STRING_LENGTH])).1

/-- C8: lifecycle reference counting: each initialize increments the
process-wide counter; `Shutdown force` on a live state frees the resources
iff the count reaches zero or `force` is true, and otherwise only decrements
the counter.  Concretely, from a fresh state, two initializations followed by
one `Shutdown false` leave the logger usable with count 1; a second
`Shutdown false` tears it down; a single `Shutdown true` after the two
initializations tears it down regardless of the count. -/
theorem C8_lifecycle_refcount :
    (∀ s : CdiLoggerGlobalState, CdiLoggerInit s =
      { refCount := s.refCount + 1, resourcesAllocated := true }) ∧
    (∀ (s : CdiLoggerGlobalState) (force : Bool),
      s.resourcesAllocated = true → 0 < s.refCount →
      ((CdiLoggerShutdown s force).resourcesAllocated = false ↔
        s.refCount = 1 ∨ force = true) ∧
      (¬(s.refCount = 1 ∨ force = true) →
        CdiLoggerShutdown s force = { s with refCount := s.refCount - 1 })) ∧
    (CdiLoggerShutdown (CdiLoggerInit (CdiLoggerInit ⟨0, false⟩))
      false).resourcesAllocated = true ∧
    (CdiLoggerShutdown (CdiLoggerInit (CdiLoggerInit ⟨0, false⟩))
      false).refCount = 1 ∧
    (CdiLoggerShutdown (CdiLoggerShutdown (CdiLoggerInit (CdiLoggerInit ⟨0, false⟩))
      false) false).resourcesAllocated = false ∧
    (CdiLoggerShutdown (CdiLoggerInit (CdiLoggerInit ⟨0, false⟩))
      true).resourcesAllocated = false := by
  refine ⟨fun s => rfl, ?_, by decide, by decide, by decide, by decide⟩
  intro s force h1 h2
  by_cases hc : s.refCount = 1 ∨ force = true
  · have hc' : s.refCount - 1 = 0 ∨ force = true := by
      rcases hc with h | h
      · exact Or.inl (by omega)
      · exact Or.inr h
    have hsd : CdiLoggerShutdown s force = ⟨0, false⟩ := by
      simp only [CdiLoggerShutdown, if_pos hc']
    rw [hsd]
    exact ⟨by simp [hc], fun hn => absurd hc hn⟩
  · have hc' : ¬(s.refCount - 1 = 0 ∨ force = true) := by
      intro hh
      apply hc
      rcases hh with h | h
      · exact Or.inl (by omega)
      · exact Or.inr h
    have hsd : CdiLoggerShutdown s force = { s with refCount := s.refCount - 1 } := by
      simp only [CdiLoggerShutdown, if_neg hc']
    rw [hsd]
    refine ⟨?_, fun _ => rfl⟩
    simp [hc, h1]

/-- Witness for C8: shutting down a live state with count 2 without force
does not free the resources. -/
theorem C8_lifecycle_refcount_witness :
    (CdiLoggerShutdown ⟨2, true⟩ false).resourcesAllocated = false ↔
      (⟨2, true⟩ : CdiLoggerGlobalState).refCount = 1 ∨ false = true :=
  (C8_lifecycle_refcount.2.1 ⟨2, true⟩ false rfl (by decide)).1

/-- C9: `GetErrorForName` is total and always returns a non-retryable error;
it maps the four exception names to their `CDIMonitoringErrors` values, and
every name whose hash differs from all four precomputed hashes (no hash
collision) to `CoreErrors::UNKNOWN`. -/
theorem C9_error_mapper :
    (∀ s : String, (GetErrorForName s).isRetryable = false) ∧
    GetErrorForName "ForbiddenException" =
      ⟨CoreErrors.cdiError CDIMonitoringErrors.FORBIDDEN, false⟩ ∧
    GetErrorForName "TooManyRequestsException" =
      ⟨CoreErrors.cdiError CDIMonitoringErrors.TOO_MANY_REQUESTS, false⟩ ∧
    GetErrorForName "BadRequestException" =
      ⟨CoreErrors.cdiError CDIMonitoringErrors.BAD_REQUEST, false⟩ ∧
    GetErrorForName "InternalServerErrorException" =
      ⟨CoreErrors.cdiError CDIMonitoringErrors.INTERNAL_SERVER_ERROR, false⟩ ∧
    (∀ s : String,
      hashString s ≠ FORBIDDEN_HASH →
      hashString s ≠ TOO_MANY_REQUESTS_HASH →
      hashString s ≠ BAD_REQUEST_HASH →
      hashString s ≠ INTERNAL_SERVER_ERROR_HASH →
      GetErrorForName s = ⟨CoreErrors.UNKNOWN, false⟩) := by
  refine ⟨?_, by decide, by decide, by decide, by decide, ?_⟩
  · intro s
    unfold GetErrorForName
    split_ifs <;> rfl
  · intro s h1 h2 h3 h4
    unfold GetErrorForName
    rw [if_neg h1, if_neg h2, if_neg h3, if_neg h4]

/-- Witness for C9: a name that is none of the four (and collides with none
of their hashes) maps to `UNKNOWN`, not retryable. -/
theorem C9_error_mapper_witness :
    GetErrorForName "SomeOtherException" = ⟨CoreErrors.UNKNOWN, false⟩ :=
  C9_error_mapper.2.2.2.2.2 "SomeOtherException" (by decide) (by decide)
    (by decide) (by decide)

/-- C10: `PutMetricGroupsResult::operator=`: when the payload has an
"endpoint" key, `m_endpoint` is set to its string value and nothing else
changes; when the key is absent the object is unchanged entirely (so a
default-constructed object keeps its empty endpoint); the assigned-to object
is what the operator returns. -/
theorem C10_assign_endpoint :
    ∀ (α : Type) (r : PutMetricGroupsResult α) (payload : JsonPayload),
      (∀ v : String, List.lookup "endpoint" payload = some v →
        putMetricGroupsResultAssign r payload = ⟨v, r.otherMembers⟩) ∧
      (List.lookup "endpoint" payload = none →
        putMetricGroupsResultAssign r payload = r) ∧
      (putMetricGroupsResultAssign r payload).otherMembers = r.otherMembers := by
  intro α r payload
  refine ⟨?_, ?_, ?_⟩
  · intro v hv
    cases r
    simp [putMetricGroupsResultAssign, valueExists, getString, hv]
  · intro hn
    simp [putMetricGroupsResultAssign, valueExists, hn]
  · by_cases hb : valueExists payload "endpoint"
    · simp [putMetricGroupsResultAssign, hb]
    · simp [putMetricGroupsResultAssign, hb]

/-- Witness for C10: a payload carrying "endpoint" sets the member and keeps
the rest; a payload without it leaves the object untouched. -/
theorem C10_assign_endpoint_witness :
    putMetricGroupsResultAssign (⟨"old", (42 : Nat)⟩ : PutMetricGroupsResult Nat)
      [("endpoint", "https://cdi.example")] =
      ⟨"https://cdi.example",
       (⟨"old", (42 : Nat)⟩ : PutMetricGroupsResult Nat).otherMembers⟩ ∧
    putMetricGroupsResultAssign (⟨"old", (42 : Nat)⟩ : PutMetricGroupsResult Nat)
      [("other", "x")] = ⟨"old", (42 : Nat)⟩ :=
  ⟨(C10_assign_endpoint Nat ⟨"old", 42⟩ [("endpoint", "https://cdi.example")]).1
      "https://cdi.example" (by decide),
   (C10_assign_endpoint Nat ⟨"old", 42⟩ [("other", "x")]).2.1 (by decide)⟩

/-- Witness for C1: the general counter/emission characterization applied at
`everyN = 3` with a fresh counter. -/
theorem C1_rate_limited_gate_witness :
    (cdiLogWhen true 3 0).1 = (0 + 1) % 2 ^ 64 ∧
    (LogOutput.message ∈ (cdiLogWhen true 3 0).2 ↔
      (0 : Int) < 3 ∧ ((3 : Int) = 1 ∨ ((0 + 1) % 2 ^ 64) % (3 : Int).toNat = 1)) :=
  C1_rate_limited_gate.2.1 3 0

/-- Witness for C3: the enablement characterization applied to a concrete
fully enabled log at component 0, level 2. -/
theorem C3_is_enabled_iff_witness :
    (CdiLoggerIsEnabled allOnLog 0 2 = true ↔
      allOnLog.componentEnabled 0 = true ∧ allOnLog.levelThreshold 0 ≤ 2) ∧
    CdiLoggerIsEnabled (CdiLoggerComponentEnable allOnLog 0 false) 0 2 = false :=
  C3_is_enabled_iff allOnLog 0 2
